import Mathlib

/-!
Verification of the struct-create schema-to-code generator (src/main.go).

Modelling conventions:
- Go strings are modelled as `List Char` (`Str`); all names and catalog
  values in the claims are ASCII, where a Go byte is exactly one `Char`.
- A Go panic (index out of range) is modelled as `Option.none` / the
  `RunResult.panic` constructor; `log.Fatal` (process abort carrying an
  error message) as `RunResult.fatal`.
- The Go `map[string]bool` import set is modelled as a duplicate-free
  list built by first-insertion order; Go's map iteration order is
  unspecified, so theorems about the emitted import block constrain the
  set of imports, not their order.
- The global `config` variable is passed explicitly to the functions
  that read it.
-/

/-- Go strings, as lists of characters (bytes; all relevant data is ASCII). -/
abbrev Str := List Char

/-- The `Configuration` struct of main.go (all fields, in source order). -/
structure Configuration where
  Host : Str
  Port : Int
  DbUser : Str
  DbPassword : Str
  DbName : Str
  PkgName : Str
  TagLabel : Str
deriving DecidableEq

/-- The `defaults` configuration value of main.go. -/
def defaults : Configuration :=
  ⟨"localhost".data, 3306, "db_user".data, "db_pw".data, "bd_name".data,
   "DbStructs".data, "db".data⟩

/-- The `ColumnSchema` struct of main.go (sql.NullInt64 fields as `Option Int`). -/
structure ColumnSchema where
  TableName : Str
  ColumnName : Str
  IsNullable : Str
  DataType : Str
  CharacterMaximumLength : Option Int
  NumericPrecision : Option Int
  NumericScale : Option Int
  ColumnType : Str
  ColumnKey : Str
deriving DecidableEq

/-- Builds a `ColumnSchema` from the four fields the core logic reads. -/
def mkCol (t c n d : Str) : ColumnSchema := ⟨t, c, n, d, none, none, none, [], []⟩

/-- Go's `strings.Split(name, "_")`: splits at every underscore, keeping
empty segments; the empty string yields one empty segment. -/
def splitUnderscore : Str → List Str
  | [] => [[]]
  | c :: rest =>
    match splitUnderscore rest with
    | [] => if c = '_' then [[], []] else [[c]]
    | h :: t => if c = '_' then [] :: h :: t else (c :: h) :: t

/-- One step of main.go's `formatName` loop body: uppercase the first
character of a segment (`strings.Replace(p, string(p[0]), ToUpper(...), 1)`,
whose first match is always at position 0); `none` models the panic of
`p[0]` on an empty segment. -/
def upperFirstGo (p : Str) : Option Str :=
  match p with
  | [] => none
  | c :: rest => some (c.toUpper :: rest)

/-- The accumulator loop of main.go's `formatName`: `newName` starts empty
and each segment's uppercased form is appended; an empty segment panics. -/
def formatNameAux : Str → List Str → Option Str
  | acc, [] => some acc
  | acc, p :: ps =>
    match upperFirstGo p with
    | none => none
    | some q => formatNameAux (acc ++ q) ps

/-- main.go's `formatName`: split on underscores, uppercase each segment's
first character, concatenate. `none` models the panic on an empty segment. -/
def formatName (name : Str) : Option Str := formatNameAux [] (splitUnderscore name)

/-- Total per-segment uppercasing following the spec's policy: a zero-length
segment contributes nothing to the output. -/
def upperFirstSeg (p : Str) : Str :=
  match p with
  | [] => []
  | c :: rest => c.toUpper :: rest

/-- The identifier formatter as the spec words it (§4.2): split on
underscores, uppercase the first character of each segment, concatenate
with no separator, a zero-length segment contributing nothing. -/
def formatNameSpec (name : Str) : Str :=
  ((splitUnderscore name).map upperFirstSeg).foldl (· ++ ·) []

/-- main.go's `goType`: maps a column's catalog data type and nullability to
a Go type name and a required import; mirrors the source's pre-set of
`requiredImport` for nullable columns, the switch, and the `gt == ""` error
check. -/
def goType (col : ColumnSchema) : Except Str (Str × Str) :=
  let requiredImport : Str := if col.IsNullable = "YES".data then "database/sql".data else []
  let p : Str × Str :=
    if col.DataType = "varchar".data ∨ col.DataType = "enum".data ∨ col.DataType = "text".data ∨
        col.DataType = "longtext".data ∨ col.DataType = "mediumtext".data then
      (if col.IsNullable = "YES".data then "sql.NullString".data else "string".data, requiredImport)
    else if col.DataType = "blob".data ∨ col.DataType = "mediumblob".data ∨
        col.DataType = "longblob".data then
      ("[]byte".data, requiredImport)
    else if col.DataType = "date".data ∨ col.DataType = "time".data ∨
        col.DataType = "datetime".data ∨ col.DataType = "timestamp".data then
      ("time.Time".data, "time".data)
    else if col.DataType = "tinyint".data ∨ col.DataType = "smallint".data ∨
        col.DataType = "int".data ∨ col.DataType = "mediumint".data ∨
        col.DataType = "bigint".data then
      (if col.IsNullable = "YES".data then "sql.NullInt64".data else "int64".data, requiredImport)
    else if col.DataType = "float".data ∨ col.DataType = "decimal".data ∨
        col.DataType = "double".data then
      (if col.IsNullable = "YES".data then "sql.NullFloat64".data else "float64".data, requiredImport)
    else
      ([], requiredImport)
  if p.1 = [] then
    .error ("No compatible datatype for ".data ++ col.TableName ++ ".".data ++
      col.ColumnName ++ " found".data)
  else
    .ok p

/-- Outcome of the `writeStructs` body loop: a Go panic, a `log.Fatal`
with its message, or the accumulated buffer and import set. -/
inductive LoopResult where
  | panic : LoopResult
  | fatal : Str → LoopResult
  | ok : Str → List Str → LoopResult
deriving DecidableEq

/-- Adding a key to the `neededImports` map: a no-op when already present. -/
def insertImport (imports : List Str) (imp : Str) : List Str :=
  if imp ∈ imports then imports else imports ++ [imp]

/-- The text main.go appends to the buffer for one column: tab, formatted
field name, space, Go type, then — only when `TagLabel` is non-empty — the
tag built from the raw column name, then a newline (lines 78-84). -/
def fieldLine (cfg : Configuration) (cs : ColumnSchema) (cn gt : Str) : Str :=
  "\t".data ++ cn ++ " ".data ++ gt ++
    (if cfg.TagLabel.length > 0 then
      "\t`".data ++ cfg.TagLabel ++ ":\x22".data ++ cs.ColumnName ++ "\x22`".data
    else []) ++
    "\n".data

/-- Lines 62-67 of `writeStructs`: on a table change, close the previous
type block (when one is open) and open a new one named after the formatted
table name; `none` models the panic of `formatName` on the table name. -/
def openBlock (buffer currentTable : Str) (cs : ColumnSchema) : Option Str :=
  if cs.TableName ≠ currentTable then
    (formatName cs.TableName).map (fun tn =>
      (if currentTable ≠ [] then buffer ++ "\x7d\n\n".data else buffer) ++
        "type ".data ++ tn ++ " struct\x7b\n".data)
  else some buffer

/-- The `for _, cs := range schemas` loop of `writeStructs` (lines 61-88):
close/open a type block on a table change (panicking if `formatName` on the
table name panics), call `goType` (aborting fatally on its error, after the
empty required-import of the error case would have been skipped), then
append the field line (panicking if `formatName` on the column name panics). -/
def writeLoop (cfg : Configuration) : List ColumnSchema → Str → Str → List Str → LoopResult
  | [], buffer, _, imports => .ok buffer imports
  | cs :: rest, buffer, currentTable, imports =>
    match openBlock buffer currentTable cs with
    | none => .panic
    | some buffer' =>
      match goType cs with
      | .error e => .fatal e
      | .ok (gt, imp) =>
        let imports' := if imp ≠ [] then insertImport imports imp else imports
        match formatName cs.ColumnName with
        | none => .panic
        | some cn =>
          writeLoop cfg rest (buffer' ++ fieldLine cfg cs cn gt) cs.TableName imports'

/-- The lines of the import block, one per collected import, in the model's
iteration order (lines 98-100). -/
def importLines (imports : List Str) : Str :=
  imports.foldl (fun acc imp => acc ++ "\t\x22".data ++ imp ++ "\x22\n".data) []

/-- The header section of `writeStructs` (lines 93-103): package line, then
an import block only when at least one import was collected. -/
def header (cfg : Configuration) (imports : List Str) : Str :=
  "package ".data ++ cfg.PkgName ++ "\n\n".data ++
    (if imports.length > 0 then
      "import (\n".data ++ importLines imports ++ ")\n\n".data
    else [])

/-- Observable outcome of one `writeStructs` run: a panic, a `log.Fatal`
with its message, or the full generated text together with the returned
file length. -/
inductive RunResult where
  | panic : RunResult
  | fatal : Str → RunResult
  | ok : Str → Nat → RunResult
deriving DecidableEq

/-- main.go's `writeStructs`: run the loop, append the closing `\x7d`, prepend
the header, and return the text with its length; a panic or `log.Fatal`
inside the loop aborts the run before anything reaches the output sink. -/
def writeStructs (cfg : Configuration) (schemas : List ColumnSchema) : RunResult :=
  match writeLoop cfg schemas [] [] [] with
  | .panic => .panic
  | .fatal e => .fatal e
  | .ok buffer imports =>
    let full := header cfg imports ++ (buffer ++ "\x7d".data)
    .ok full full.length

/-- What the output sink receives: the full text on a successful run whose
length is positive (lines 109-126), nothing when the run aborted. -/
def sinkOutput (r : RunResult) : Option Str :=
  match r with
  | .ok text len => if len > 0 then some text else none
  | .panic => none
  | .fatal _ => none

/-- The string-family catalog types of the mapping table. -/
def stringTypes : List Str :=
  ["varchar".data, "enum".data, "text".data, "longtext".data, "mediumtext".data]

/-- The blob-family catalog types of the mapping table. -/
def blobTypes : List Str := ["blob".data, "mediumblob".data, "longblob".data]

/-- The temporal-family catalog types of the mapping table. -/
def temporalTypes : List Str :=
  ["date".data, "time".data, "datetime".data, "timestamp".data]

/-- The integer-family catalog types of the mapping table. -/
def intTypes : List Str :=
  ["tinyint".data, "smallint".data, "int".data, "mediumint".data, "bigint".data]

/-- The float-family catalog types of the mapping table. -/
def floatTypes : List Str := ["float".data, "decimal".data, "double".data]

/-- Every catalog type the `goType` switch handles. -/
def mappedTypes : List Str :=
  stringTypes ++ blobTypes ++ temporalTypes ++ intTypes ++ floatTypes

/-- A nullable varchar column, for concrete instantiations. -/
def vcolW : ColumnSchema := mkCol "users".data "name".data "YES".data "varchar".data

/-- A non-nullable bigint column, for concrete instantiations. -/
def icolW : ColumnSchema := mkCol "users".data "qty".data "NO".data "bigint".data

/-- A nullable decimal column, for concrete instantiations. -/
def fcolW : ColumnSchema := mkCol "users".data "price".data "YES".data "decimal".data

/-- A non-nullable datetime column, for concrete instantiations. -/
def dcolW : ColumnSchema :=
  mkCol "t1".data "created_at".data "NO".data "datetime".data

/-- A nullable blob column, for concrete instantiations. -/
def blobColW : ColumnSchema := mkCol "t1".data "payload".data "YES".data "blob".data

/-- A non-nullable mediumblob column, for concrete instantiations. -/
def blobColN : ColumnSchema :=
  mkCol "t1".data "thumb".data "NO".data "mediumblob".data

/-- A column whose catalog type is outside the mapping table. -/
def badColW : ColumnSchema := mkCol "users".data "loc".data "NO".data "geometry".data

/-- A non-nullable int column, for concrete instantiations. -/
def colW : ColumnSchema := mkCol "users".data "id".data "NO".data "int".data

/-- The default configuration with an empty tag label. -/
def cfgNoTag : Configuration := { defaults with TagLabel := [] }

example : goType (mkCol "t".data "c".data "YES".data "varchar".data) =
    .ok ("sql.NullString".data, "database/sql".data) := rfl

example : goType (mkCol "t".data "c".data "NO".data "blob".data) =
    .ok ("[]byte".data, []) := rfl

example : goType (mkCol "t".data "c".data "YES".data "blob".data) =
    .ok ("[]byte".data, "database/sql".data) := rfl

example : goType (mkCol "t".data "c".data "YES".data "datetime".data) =
    .ok ("time.Time".data, "time".data) := rfl

example : goType (mkCol "t".data "c".data "NO".data "geometry".data) =
    .error "No compatible datatype for t.c found".data := rfl

example : formatName "first_name".data = some "FirstName".data := by decide

example : formatName "id".data = some "Id".data := by decide

example : formatName [] = none := by decide

example : formatName "a__b".data = none := by decide

example : formatNameSpec "a__b".data = "AB".data := by decide

set_option maxRecDepth 4000 in
example : writeStructs defaults [] =
    .ok "package DbStructs\n\n\x7d".data 20 := by decide

example : sinkOutput (writeStructs defaults [mkCol "users".data "id".data "NO".data "point".data]) =
    none := by decide

set_option maxRecDepth 40000 in
example :
    writeStructs defaults
      [mkCol "users".data "id".data "NO".data "int".data,
       mkCol "users".data "name".data "YES".data "varchar".data,
       mkCol "orders".data "id".data "NO".data "int".data] =
    .ok ("package DbStructs\n\nimport (\n\t\x22database/sql\x22\n)\n\n" ++
      "type Users struct\x7b\n\tId int64\t`db:\x22id\x22`\n" ++
      "\tName sql.NullString\t`db:\x22name\x22`\n\x7d\n\n" ++
      "type Orders struct\x7b\n\tId int64\t`db:\x22id\x22`\n\x7d").data 163 := by decide

lemma formatNameAux_eq_foldl (l : List Str) :
    ∀ acc : Str, (∀ p ∈ l, p ≠ []) →
      formatNameAux acc l = some (l.foldl (fun a p => a ++ upperFirstSeg p) acc) := by
  induction l with
  | nil => intro acc _; rfl
  | cons p ps ih =>
    intro acc h
    have hp : p ≠ [] := h p (List.mem_cons_self _ _)
    cases p with
    | nil => exact absurd rfl hp
    | cons c rest =>
      rw [show formatNameAux acc ((c :: rest) :: ps) =
            formatNameAux (acc ++ (c.toUpper :: rest)) ps from rfl,
          List.foldl_cons]
      exact ih _ (fun q hq => h q (List.mem_cons_of_mem _ hq))

lemma foldlConcat_shift (m : List Str) :
    ∀ a : Str, m.foldl (· ++ ·) a = a ++ m.foldl (· ++ ·) [] := by
  induction m with
  | nil => intro a; simp
  | cons x m ih =>
    intro a
    rw [List.foldl_cons, List.foldl_cons, ih (a ++ x), ih ([] ++ x),
      List.nil_append, List.append_assoc]

lemma foldl_upperFirstSeg (l : List Str) :
    ∀ acc : Str, l.foldl (fun a p => a ++ upperFirstSeg p) acc =
      acc ++ (l.map upperFirstSeg).foldl (· ++ ·) [] := by
  induction l with
  | nil => intro acc; simp
  | cons p ps ih =>
    intro acc
    rw [List.foldl_cons, List.map_cons, List.foldl_cons, ih,
      foldlConcat_shift _ ([] ++ upperFirstSeg p), List.nil_append, List.append_assoc]

/-- C8: for every input made of non-empty underscore-separated segments,
`formatName` splits on underscores, uppercases the first character of each
segment and concatenates the segments with no separator, leaving all other
characters unchanged (the behaviour `formatNameSpec` words); in particular
`formatName "first_name" = "FirstName"` and `formatName "id" = "Id"`. -/
theorem formatName_uppercases_segments (name : Str)
    (h : ∀ p ∈ splitUnderscore name, p ≠ []) :
    formatName name = some (formatNameSpec name) ∧
    formatName "first_name".data = some "FirstName".data ∧
    formatName "id".data = some "Id".data := by
  refine ⟨?_, by decide, by decide⟩
  rw [formatName, formatNameAux_eq_foldl _ _ h, formatNameSpec,
    foldl_upperFirstSeg, List.nil_append]

/-- C8 witness: the general statement applied to "first_name". -/
theorem formatName_uppercases_segments_witness :
    formatName "first_name".data = some "FirstName".data :=
  (formatName_uppercases_segments "first_name".data (by decide)).2.1

/-- C4: `formatName` does not handle empty segments: on the empty string and
on "a__b" the original panics (indexing the first character of a zero-length
segment), modelled as `none`, where the spec's policy (`formatNameSpec`)
requires "" and "AB". -/
theorem formatName_empty_segment_panics :
    formatName [] = none ∧ formatName "a__b".data = none ∧
    formatNameSpec [] = [] ∧ formatNameSpec "a__b".data = "AB".data := by decide

/-- C1: columns of the string, integer and float families map to the
nullable wrapper together with the sql package import when `IsNullable` is
exactly "YES", and to the bare type with no import otherwise. -/
theorem goType_scalar_families (col : ColumnSchema) :
    (col.DataType ∈ stringTypes →
      goType col = .ok (if col.IsNullable = "YES".data then
        ("sql.NullString".data, "database/sql".data) else ("string".data, []))) ∧
    (col.DataType ∈ intTypes →
      goType col = .ok (if col.IsNullable = "YES".data then
        ("sql.NullInt64".data, "database/sql".data) else ("int64".data, []))) ∧
    (col.DataType ∈ floatTypes →
      goType col = .ok (if col.IsNullable = "YES".data then
        ("sql.NullFloat64".data, "database/sql".data) else ("float64".data, []))) := by
  obtain ⟨tn, cn, nul, dt, cml, np, ns, ct, ck⟩ := col
  refine ⟨?_, ?_, ?_⟩ <;> intro h <;>
    simp only [stringTypes, intTypes, floatTypes, List.mem_cons,
      List.not_mem_nil, or_false] at h
  · rcases h with rfl | rfl | rfl | rfl | rfl <;>
      by_cases hn : nul = "YES".data <;> simp [goType, hn]
  · rcases h with rfl | rfl | rfl | rfl | rfl <;>
      by_cases hn : nul = "YES".data <;> simp [goType, hn]
  · rcases h with rfl | rfl | rfl <;>
      by_cases hn : nul = "YES".data <;> simp [goType, hn]

/-- C1 witness: the three families at concrete nullable/non-nullable columns. -/
theorem goType_scalar_families_witness :
    goType vcolW = .ok ("sql.NullString".data, "database/sql".data) ∧
    goType icolW = .ok ("int64".data, []) ∧
    goType fcolW = .ok ("sql.NullFloat64".data, "database/sql".data) :=
  ⟨(goType_scalar_families vcolW).1 (by decide),
   (goType_scalar_families icolW).2.1 (by decide),
   (goType_scalar_families fcolW).2.2 (by decide)⟩

/-- C2 counterexample: a nullable blob column maps to `[]byte` but reports
the sql package as required import — the claim's "no required aux import,
regardless of nullability" for blobs is false on the code. -/
theorem goType_nullable_blob_reports_import :
    goType blobColW = .ok ("[]byte".data, "database/sql".data) ∧
    ("database/sql".data : Str) ≠ [] := ⟨rfl, by decide⟩

/-- C2 amended: temporal columns always map to the temporal type with the
time package import, and blob columns always map to the byte-sequence type
with no nullable wrapper; but a nullable blob column reports the sql package
as aux import (the nullable pre-set is never cleared for blobs), while a
non-nullable blob reports none. -/
theorem goType_blob_temporal (col : ColumnSchema) :
    (col.DataType ∈ temporalTypes →
      goType col = .ok ("time.Time".data, "time".data)) ∧
    (col.DataType ∈ blobTypes →
      goType col = .ok ("[]byte".data,
        if col.IsNullable = "YES".data then "database/sql".data else [])) := by
  obtain ⟨tn, cn, nul, dt, cml, np, ns, ct, ck⟩ := col
  refine ⟨?_, ?_⟩ <;> intro h <;>
    simp only [temporalTypes, blobTypes, List.mem_cons,
      List.not_mem_nil, or_false] at h
  · rcases h with rfl | rfl | rfl | rfl <;>
      by_cases hn : nul = "YES".data <;> simp [goType, hn]
  · rcases h with rfl | rfl | rfl <;>
      by_cases hn : nul = "YES".data <;> simp [goType, hn]

/-- C2 amended witness: a datetime and a non-nullable mediumblob column. -/
theorem goType_blob_temporal_witness :
    goType dcolW = .ok ("time.Time".data, "time".data) ∧
    goType blobColN = .ok ("[]byte".data, []) :=
  ⟨(goType_blob_temporal dcolW).1 (by decide),
   (goType_blob_temporal blobColN).2 (by decide)⟩

/-- C10: for every mapped data type, any `IsNullable` value other than
exactly "YES" (such as "NO", "", or lowercase "yes") yields the bare
non-nullable type and, outside the temporal family, no aux import. -/
theorem goType_non_yes_is_bare (col : ColumnSchema)
    (hn : col.IsNullable ≠ "YES".data) :
    (col.DataType ∈ stringTypes → goType col = .ok ("string".data, [])) ∧
    (col.DataType ∈ blobTypes → goType col = .ok ("[]byte".data, [])) ∧
    (col.DataType ∈ temporalTypes → goType col = .ok ("time.Time".data, "time".data)) ∧
    (col.DataType ∈ intTypes → goType col = .ok ("int64".data, [])) ∧
    (col.DataType ∈ floatTypes → goType col = .ok ("float64".data, [])) := by
  obtain ⟨tn, cn, nul, dt, cml, np, ns, ct, ck⟩ := col
  refine ⟨?_, ?_, ?_, ?_, ?_⟩ <;> intro h <;>
    simp only [stringTypes, blobTypes, temporalTypes, intTypes, floatTypes,
      List.mem_cons, List.not_mem_nil, or_false] at h
  · rcases h with rfl | rfl | rfl | rfl | rfl <;> simp [goType, hn]
  · rcases h with rfl | rfl | rfl <;> simp [goType, hn]
  · rcases h with rfl | rfl | rfl | rfl <;> simp [goType, hn]
  · rcases h with rfl | rfl | rfl | rfl | rfl <;> simp [goType, hn]
  · rcases h with rfl | rfl | rfl <;> simp [goType, hn]

/-- C10 witness: "NO", the empty string and lowercase "yes" all yield the
bare type. -/
theorem goType_non_yes_is_bare_witness :
    goType colW = .ok ("int64".data, []) ∧
    goType (mkCol "t".data "c".data [] "varchar".data) = .ok ("string".data, []) ∧
    goType (mkCol "t".data "c".data "yes".data "double".data) =
      .ok ("float64".data, []) :=
  ⟨(goType_non_yes_is_bare colW (by decide)).2.2.2.1 (by decide),
   (goType_non_yes_is_bare (mkCol "t".data "c".data [] "varchar".data)
     (by decide)).1 (by decide),
   (goType_non_yes_is_bare (mkCol "t".data "c".data "yes".data "double".data)
     (by decide)).2.2.2.2 (by decide)⟩

/-- C3: for every column whose data type is outside the mapping table,
`goType` fails with an error identifying tableName.columnName and never
returns a type name. -/
theorem goType_unmapped_error (col : ColumnSchema) (h : col.DataType ∉ mappedTypes) :
    goType col = .error ("No compatible datatype for ".data ++ col.TableName ++
      ".".data ++ col.ColumnName ++ " found".data) ∧
    ∀ r, goType col ≠ .ok r := by
  obtain ⟨tn, cn, nul, dt, cml, np, ns, ct, ck⟩ := col
  have h1 : ¬(dt = "varchar".data ∨ dt = "enum".data ∨ dt = "text".data ∨
      dt = "longtext".data ∨ dt = "mediumtext".data) := by
    rintro (rfl | rfl | rfl | rfl | rfl) <;>
      exact h (by simp [mappedTypes, stringTypes, blobTypes, temporalTypes, intTypes, floatTypes])
  have h2 : ¬(dt = "blob".data ∨ dt = "mediumblob".data ∨ dt = "longblob".data) := by
    rintro (rfl | rfl | rfl) <;>
      exact h (by simp [mappedTypes, stringTypes, blobTypes, temporalTypes, intTypes, floatTypes])
  have h3 : ¬(dt = "date".data ∨ dt = "time".data ∨ dt = "datetime".data ∨
      dt = "timestamp".data) := by
    rintro (rfl | rfl | rfl | rfl) <;>
      exact h (by simp [mappedTypes, stringTypes, blobTypes, temporalTypes, intTypes, floatTypes])
  have h4 : ¬(dt = "tinyint".data ∨ dt = "smallint".data ∨ dt = "int".data ∨
      dt = "mediumint".data ∨ dt = "bigint".data) := by
    rintro (rfl | rfl | rfl | rfl | rfl) <;>
      exact h (by simp [mappedTypes, stringTypes, blobTypes, temporalTypes, intTypes, floatTypes])
  have h5 : ¬(dt = "float".data ∨ dt = "decimal".data ∨ dt = "double".data) := by
    rintro (rfl | rfl | rfl) <;>
      exact h (by simp [mappedTypes, stringTypes, blobTypes, temporalTypes, intTypes, floatTypes])
  have heq : goType ⟨tn, cn, nul, dt, cml, np, ns, ct, ck⟩ =
      .error ("No compatible datatype for ".data ++ tn ++ ".".data ++ cn ++
        " found".data) := by
    simp [goType, h1, h2, h3, h4, h5]
  exact ⟨heq, fun r hr => by rw [heq] at hr; exact Except.noConfusion hr⟩

/-- C3 witness: a "geometry" column fails with the identifying message. -/
theorem goType_unmapped_error_witness :
    goType badColW = .error "No compatible datatype for users.loc found".data :=
  (goType_unmapped_error badColW (by decide)).1

/-- C5 counterexample: on the empty input sequence the run succeeds but the
emitted text is the package declaration followed by a stray closing brace
(the unconditional final `buffer.WriteString` of line 90), so it is not the
package declaration only. -/
theorem writeStructs_empty_not_package_only :
    writeStructs defaults [] = .ok "package DbStructs\n\n\x7d".data 20 ∧
    "package DbStructs\n\n\x7d".data =
      "package DbStructs\n\n".data ++ "\x7d".data ∧
    "package DbStructs\n\n\x7d".data ≠ "package DbStructs\n\n".data := by decide

/-- C5 amended: emitting an empty input sequence succeeds (it is not an
error), with no import block and no type declarations, and produces the
package declaration followed by one stray closing brace. -/
theorem writeStructs_empty_input (cfg : Configuration) :
    writeStructs cfg [] =
      .ok ("package ".data ++ cfg.PkgName ++ "\n\n".data ++ "\x7d".data)
        ("package ".data ++ cfg.PkgName ++ "\n\n".data ++ "\x7d".data).length := by
  simp [writeStructs, writeLoop, header, List.append_assoc]

lemma writeLoop_ok_goType (cfg : Configuration) :
    ∀ (l : List ColumnSchema) (buffer ct : Str) (imps : List Str) (b' : Str)
      (imps' : List Str), writeLoop cfg l buffer ct imps = .ok b' imps' →
      ∀ cs ∈ l, ∃ r, goType cs = .ok r := by
  intro l
  induction l with
  | nil => intro _ _ _ _ _ _ cs hcs; exact absurd hcs (List.not_mem_nil _)
  | cons cs₀ rest ih =>
    intro buffer ct imps b' imps' h cs hcs
    simp only [writeLoop] at h
    split at h
    · exact absurd h (by simp)
    · split at h
      · exact absurd h (by simp)
      · split at h
        · exact absurd h (by simp)
        · rcases List.mem_cons.mp hcs with rfl | hcs'
          · exact ⟨_, by assumption⟩
          · exact ih _ _ _ _ _ h cs hcs'

lemma writeLoop_fatal_goType (cfg : Configuration) :
    ∀ (l : List ColumnSchema) (buffer ct : Str) (imps : List Str) (e : Str),
      writeLoop cfg l buffer ct imps = .fatal e →
      ∃ cs ∈ l, goType cs = .error e := by
  intro l
  induction l with
  | nil => intro _ _ _ _ h; exact absurd h (by simp [writeLoop])
  | cons cs₀ rest ih =>
    intro buffer ct imps e h
    simp only [writeLoop] at h
    split at h
    · exact absurd h (by simp)
    · split at h
      · injection h with h'
        subst h'
        exact ⟨cs₀, List.mem_cons_self _ _, by assumption⟩
      · split at h
        · exact absurd h (by simp)
        · obtain ⟨cs, hm, hg⟩ := ih _ _ _ _ h
          exact ⟨cs, List.mem_cons_of_mem _ hm, hg⟩

/-- C6: whenever some column of the input has an unmappable data type, the
run aborts — either with that `goType` failure through `log.Fatal`, or with
an earlier name panic — and the output sink receives nothing: no partial
generated text is ever committed. -/
theorem writeStructs_unmappable_aborts (cfg : Configuration)
    (schemas : List ColumnSchema)
    (h : ∃ cs ∈ schemas, ∃ e, goType cs = .error e) :
    (writeStructs cfg schemas = .panic ∨
      ∃ cs ∈ schemas, ∃ e, goType cs = .error e ∧
        writeStructs cfg schemas = .fatal e) ∧
    sinkOutput (writeStructs cfg schemas) = none := by
  obtain ⟨cs, hmem, e, he⟩ := h
  cases hl : writeLoop cfg schemas [] [] [] with
  | panic =>
    refine ⟨Or.inl ?_, ?_⟩ <;> simp [writeStructs, hl, sinkOutput]
  | fatal e' =>
    obtain ⟨cs', hm', hg'⟩ := writeLoop_fatal_goType cfg schemas [] [] [] e' hl
    refine ⟨Or.inr ⟨cs', hm', e', hg', ?_⟩, ?_⟩ <;>
      simp [writeStructs, hl, sinkOutput]
  | ok b i =>
    obtain ⟨r, hr⟩ := writeLoop_ok_goType cfg schemas [] [] [] b i hl cs hmem
    rw [he] at hr
    exact absurd hr (by simp)

/-- C6 witness: a run containing a "geometry" column commits nothing to the
sink. -/
theorem writeStructs_unmappable_aborts_witness :
    sinkOutput (writeStructs defaults [badColW]) = none :=
  (writeStructs_unmappable_aborts defaults [badColW]
    ⟨badColW, List.mem_cons_self _ _,
      "No compatible datatype for users.loc found".data, rfl⟩).2

lemma insertImport_mem (imports : List Str) (imp s : Str) :
    s ∈ insertImport imports imp ↔ s ∈ imports ∨ s = imp := by
  unfold insertImport
  split
  · rename_i hm
    exact ⟨Or.inl, fun h => h.elim id (fun e => by rw [e]; exact hm)⟩
  · simp [List.mem_append]

lemma insertImport_nodup (imports : List Str) (imp : Str) (h : imports.Nodup) :
    (insertImport imports imp).Nodup := by
  unfold insertImport
  split
  · exact h
  · rename_i hm
    simp [List.nodup_append, h, hm]

lemma writeLoop_imports_spec (cfg : Configuration) :
    ∀ (l : List ColumnSchema) (buffer ct : Str) (imps0 : List Str) (b' : Str)
      (imps' : List Str), imps0.Nodup →
      writeLoop cfg l buffer ct imps0 = .ok b' imps' →
      imps'.Nodup ∧
      ∀ s, (s ∈ imps' ↔ s ∈ imps0 ∨
        (s ≠ [] ∧ ∃ cs ∈ l, ∃ t, goType cs = .ok (t, s))) := by
  intro l
  induction l with
  | nil =>
    intro buffer ct imps0 b' imps' hnd h
    simp only [writeLoop] at h
    injection h with h1 h2
    subst h2
    exact ⟨hnd, fun s => by simp⟩
  | cons cs₀ rest ih =>
    intro buffer ct imps0 b' imps' hnd h
    simp only [writeLoop] at h
    rcases hopen : openBlock buffer ct cs₀ with _ | buffer₁ <;>
      rw [hopen] at h
    · exact absurd h (by simp)
    · rcases hg : goType cs₀ with e | ⟨gt, imp⟩ <;> rw [hg] at h
      · exact absurd h (by simp)
      · rcases hcn : formatName cs₀.ColumnName with _ | cn <;>
          simp only [hcn] at h
        · exact absurd h (by simp)
        · have hgt : goType cs₀ = Except.ok (gt, imp) := hg
          have hnd1 : (if imp ≠ [] then insertImport imps0 imp else imps0).Nodup := by
            split
            · exact insertImport_nodup _ _ hnd
            · exact hnd
          obtain ⟨hnd', hmem'⟩ := ih _ _ _ _ _ hnd1 h
          have hstep : ∀ s : Str,
              (s ≠ [] ∧ ∃ t, goType cs₀ = Except.ok (t, s)) ↔
                (imp ≠ [] ∧ s = imp) := by
            intro s
            constructor
            · rintro ⟨hs, t, ht⟩
              rw [hgt] at ht
              injection ht with ht'
              obtain ⟨h1, h2⟩ := Prod.mk.inj ht'
              subst h2
              exact ⟨hs, rfl⟩
            · rintro ⟨hi, rfl⟩
              exact ⟨hi, gt, hgt⟩
          have himps1 : ∀ s : Str,
              s ∈ (if imp ≠ [] then insertImport imps0 imp else imps0) ↔
                s ∈ imps0 ∨ (imp ≠ [] ∧ s = imp) := by
            intro s
            split
            · rename_i hi
              rw [insertImport_mem]
              exact ⟨fun h => h.elim Or.inl (fun e => Or.inr ⟨hi, e⟩),
                fun h => h.elim Or.inl (fun e => Or.inr e.2)⟩
            · rename_i hi
              simp [hi]
          refine ⟨hnd', fun s => ?_⟩
          rw [hmem' s, himps1 s, or_assoc]
          refine or_congr (Iff.refl _) ?_
          rw [← hstep s, ← and_or_left]
          refine and_congr_right fun _ => ?_
          simp [List.mem_cons, or_and_right, exists_or, exists_eq_left]

/-- C7: on a successful run, the collected import list is duplicate-free and
contains an import name exactly when some `goType` call of the run returned
it as a non-empty required import — no extras, no omissions; the emitted
text is the header followed by the body, and the header carries an import
block, listing each collected import once, only when the collected set is
non-empty. -/
theorem writeStructs_import_block (cfg : Configuration)
    (schemas : List ColumnSchema) (b : Str) (imps : List Str)
    (h : writeLoop cfg schemas [] [] [] = .ok b imps) :
    writeStructs cfg schemas =
      .ok (header cfg imps ++ (b ++ "\x7d".data))
        (header cfg imps ++ (b ++ "\x7d".data)).length ∧
    imps.Nodup ∧
    (∀ s, s ∈ imps ↔
      (s ≠ [] ∧ ∃ cs ∈ schemas, ∃ t, goType cs = .ok (t, s))) ∧
    (imps = [] → header cfg imps = "package ".data ++ cfg.PkgName ++ "\n\n".data) ∧
    (imps ≠ [] → header cfg imps = "package ".data ++ cfg.PkgName ++ "\n\n".data ++
      ("import (\n".data ++ importLines imps ++ ")\n\n".data)) := by
  obtain ⟨hnd, hmem⟩ :=
    writeLoop_imports_spec cfg schemas [] [] [] b imps List.nodup_nil h
  refine ⟨by simp [writeStructs, h], hnd, fun s => ?_, fun he => ?_, fun hne => ?_⟩
  · rw [hmem s]
    simp
  · subst he
    simp [header]
  · rw [header, if_pos (List.length_pos.mpr hne)]

/-- C7 witness: a single nullable varchar column collects exactly the sql
package import. -/
theorem writeStructs_import_block_witness :
    "database/sql".data ∈ (["database/sql".data] : List Str) ↔
      ("database/sql".data ≠ ([] : Str) ∧ ∃ cs ∈ [vcolW], ∃ t,
        goType cs = .ok (t, "database/sql".data)) :=
  (writeStructs_import_block defaults [vcolW]
    "type Users struct\x7b\n\tName sql.NullString\t`db:\x22name\x22`\n".data
    ["database/sql".data] (by decide)).2.2.1 "database/sql".data

/-- C9: the field line `writeLoop` appends for every consumed column (third
conjunct) carries no tag when `TagLabel` is empty, and carries the
`TagLabel:"columnName"` tag built from the raw, unformatted column name —
not the formatted field name — when `TagLabel` is non-empty. -/
theorem fieldLine_tag_label (cfg : Configuration) (cs : ColumnSchema)
    (cn gt : Str) :
    (cfg.TagLabel = [] →
      fieldLine cfg cs cn gt = "\t".data ++ cn ++ " ".data ++ gt ++ "\n".data) ∧
    (cfg.TagLabel ≠ [] →
      fieldLine cfg cs cn gt =
        "\t".data ++ cn ++ " ".data ++ gt ++
          ("\t`".data ++ cfg.TagLabel ++ ":\x22".data ++ cs.ColumnName ++
            "\x22`".data) ++ "\n".data) ∧
    (∀ (rest : List ColumnSchema) (buffer : Str) (imports : List Str)
        (gt₂ imp cn₂ : Str),
      goType cs = .ok (gt₂, imp) → formatName cs.ColumnName = some cn₂ →
      writeLoop cfg (cs :: rest) buffer cs.TableName imports =
        writeLoop cfg rest (buffer ++ fieldLine cfg cs cn₂ gt₂) cs.TableName
          (if imp ≠ [] then insertImport imports imp else imports)) := by
  refine ⟨fun he => ?_, fun hne => ?_, fun rest buffer imports gt₂ imp cn₂ hg hcn => ?_⟩
  · simp [fieldLine, he]
  · rw [fieldLine, if_pos (List.length_pos.mpr hne)]
  · simp [writeLoop, openBlock, hg, hcn]

/-- C9 witness: with the default "db" label the tag embeds the raw column
name "id"; with an empty label no tag is emitted. -/
theorem fieldLine_tag_label_witness :
    fieldLine cfgNoTag colW "Id".data "int64".data = "\tId int64\n".data ∧
    fieldLine defaults colW "Id".data "int64".data =
      "\tId int64\t`db:\x22id\x22`\n".data :=
  ⟨(fieldLine_tag_label cfgNoTag colW "Id".data "int64".data).1 rfl,
   (fieldLine_tag_label defaults colW "Id".data "int64".data).2.1 (by decide)⟩
